import Mathlib

/-
Verification development for the dreambot worker/routing substrate.

Shallow embedding of the Python sources:
  - src/dreambot/shared/nats.py      (bus manager: subscribe/ack loop, queue names)
  - src/dreambot/shared/worker.py    (worker base: send_message, clean_filename)
  - src/dreambot/frontend/irc.py     (IRC line parser, outbound chunking)
  - src/dreambot/backend/gpt.py      (GPT backend: conversation cache)
  - src/dreambot/backend/invokeai.py (InvokeAI backend: request correlation table)

Python strings are modelled as List Char; dictionaries carrying envelopes are
modelled as a structure over the keys the code uses; fallible code returns
Except; external services (OpenAI, InvokeAI HTTP/socket.io, the filesystem)
are parameters of the embedded functions.
-/

namespace Dreambot

/-! ## Python string primitives (List Char model) -/

/-- Python str.isspace for the ASCII whitespace characters used by str.split(None). -/
def pyIsSpace (c : Char) : Bool :=
  c == ' ' || c == '\t' || c == '\n' || c == '\x0d' || c == '\x0b' || c == '\x0c'

/-- Python s.split(None, 1): strip leading whitespace, return at most two pieces,
the first token and the rest with the separating whitespace run stripped. -/
def splitWS1 (s : List Char) : List (List Char) :=
  let s1 := s.dropWhile pyIsSpace
  match s1 with
  | [] => []
  | _ =>
    let tok := s1.takeWhile (fun c => !(pyIsSpace c))
    let rest := (s1.dropWhile (fun c => !(pyIsSpace c))).dropWhile pyIsSpace
    match rest with
    | [] => [tok]
    | _ => [tok, rest]

/-- Python s.split(sep, 1) for a one-character separator, on a string known to
contain the separator: the pieces before and after its first occurrence. -/
def splitOnceChar (sep : Char) : List Char → (List Char × List Char)
  | [] => ([], [])
  | c :: rest =>
    if c = sep then ([], rest)
    else
      let (b, a) := splitOnceChar sep rest
      (c :: b, a)

/-- Python str.upper restricted to ASCII letters (the only case the IRC command
tokens exercise): map a lowercase ASCII letter to its uppercase form. -/
def pyUpperChar (c : Char) : Char :=
  if 97 ≤ c.toNat ∧ c.toNat ≤ 122 then Char.ofNat (c.toNat - 32) else c

/-- Python str.upper over a whole string. -/
def pyUpper (s : List Char) : List Char := s.map pyUpperChar

theorem toNat_ofNat_valid (n : Nat) (h : n < 0xd800) : (Char.ofNat n).toNat = n := by
  have hv : Nat.isValidChar n := Or.inl h
  simp [Char.ofNat, hv]
  rfl

theorem pyUpperChar_idem (c : Char) : pyUpperChar (pyUpperChar c) = pyUpperChar c := by
  unfold pyUpperChar
  by_cases h : 97 ≤ c.toNat ∧ c.toNat ≤ 122
  · simp only [if_pos h]
    have h2 : (Char.ofNat (c.toNat - 32)).toNat = c.toNat - 32 :=
      toNat_ofNat_valid _ (by omega)
    rw [if_neg]
    rw [h2]
    omega
  · simp only [if_neg h]

theorem pyUpper_idem (s : List Char) : pyUpper (pyUpper s) = pyUpper s := by
  unfold pyUpper
  rw [List.map_map]
  exact List.map_congr_left fun c _ => pyUpperChar_idem c

/-! ## IRC line parser (frontend/irc.py, Message.parse_line)

The parser raises ValueError (via tuple unpacking) on malformed lines; we model
that as Except.error (). -/

/-- The prefix object of an IRC message: nick, ident, host. -/
structure IrcSource where
  nick : List Char
  ident : List Char
  host : List Char
deriving DecidableEq, Repr

/-- A parsed IRC message: optional source, command, parameters. -/
structure IrcMessage where
  src : Option IrcSource
  command : List Char
  params : List (List Char)
deriving DecidableEq, Repr

/-- The name/ident/host dissection of a prefix token (parse_line lines 43-52):
name = token[1:]; split at the first '!' into name/ident when present, then the
ident at the first '@' into ident/host; otherwise split name at the first '@'. -/
def parseIrcSource (nm : List Char) : IrcSource :=
  if nm.contains '!' then
    let (n, rest) := splitOnceChar '!' nm
    if rest.contains '@' then
      let (i, h) := splitOnceChar '@' rest
      ⟨n, i, h⟩
    else ⟨n, rest, []⟩
  else if nm.contains '@' then
    let (n, h) := splitOnceChar '@' nm
    ⟨n, [], h⟩
  else ⟨nm, [], []⟩

/-- The parameter loop of parse_line (lines 57-68), with fuel bounding the
recursion; each iteration consumes at least one character, so fuel equal to the
length of the remaining line is always sufficient. -/
def parseParams (fuel : Nat) (l : List Char) : List (List Char) :=
  match fuel with
  | 0 => []
  | fuel + 1 =>
    match l with
    | [] => []
    | c :: rest =>
      if c = ':' then [rest]
      else
        match splitWS1 l with
        | [] => []
        | [t] => [t]
        | t :: r :: _ => t :: parseParams fuel r

/-- The command/params part of parse_line (lines 54-70): the unpacking
command, *line = line.split(None, 1) raises when the split is empty. -/
def parseAfterSource (src : Option IrcSource) (l : List Char) : Except Unit IrcMessage :=
  match splitWS1 l with
  | [] => .error ()
  | [c] => .ok ⟨src, pyUpper c, []⟩
  | c :: rest :: _ => .ok ⟨src, pyUpper c, parseParams rest.length rest⟩

/-- Message.parse_line (frontend/irc.py lines 26-70). A line starting with ':'
carries a prefix: the unpacking line.split(None, 1) into exactly two pieces
raises when the line has no whitespace after the prefix token. -/
def parseIrcLine (line : List Char) : Except Unit IrcMessage :=
  match line with
  | ':' :: _ =>
    match splitWS1 line with
    | [p, rest] => parseAfterSource (some (parseIrcSource p.tail)) rest
    | _ => .error ()
  | _ => parseAfterSource none line

/-- Claim C6: the IRC line parser raises on the empty string and on
":::::::::"; parse_line "PRIVMSG #c :hello" yields no prefix, command "PRIVMSG"
and params ["#c", "hello"]; parse_line ":n!u@h PRIVMSG #c :hi" yields prefix
("n","u","h"), command "PRIVMSG" and params ["#c","hi"]; and the returned
command is always upper-cased. -/
theorem irc_parse_line_spec :
    parseIrcLine "".data = .error () ∧
    parseIrcLine ":::::::::".data = .error () ∧
    parseIrcLine "PRIVMSG #c :hello".data =
      .ok ⟨none, "PRIVMSG".data, ["#c".data, "hello".data]⟩ ∧
    parseIrcLine ":n!u@h PRIVMSG #c :hi".data =
      .ok ⟨some ⟨"n".data, "u".data, "h".data⟩, "PRIVMSG".data, ["#c".data, "hi".data]⟩ ∧
    (∀ l m, parseIrcLine l = .ok m → pyUpper m.command = m.command) := by
  refine ⟨rfl, rfl, rfl, rfl, ?_⟩
  intro l m h
  have hcmd : ∃ t, m.command = pyUpper t := by
    unfold parseIrcLine at h
    rcases l with _ | ⟨c, l'⟩
    · unfold parseAfterSource at h
      rcases hs : splitWS1 [] with _ | ⟨t, _ | ⟨r, rest⟩⟩ <;> rw [hs] at h <;>
        simp_all <;> exact ⟨t, by rw [← h]⟩
    · revert h
      split
      · intro h
        split at h
        · unfold parseAfterSource at h
          rcases hs : splitWS1 _ with _ | ⟨t, _ | ⟨r, rest⟩⟩ <;> rw [hs] at h <;>
            simp_all <;> exact ⟨t, by rw [← h]⟩
        · exact absurd h (by simp)
      · intro h
        unfold parseAfterSource at h
        rcases hs : splitWS1 (c :: l') with _ | ⟨t, _ | ⟨r, rest⟩⟩ <;> rw [hs] at h <;>
          simp_all <;> exact ⟨t, by rw [← h]⟩
  obtain ⟨t, ht⟩ := hcmd
  rw [ht, pyUpper_idem]

/-- Witness for C6: the universally quantified conjunct applied to a concrete
parsed line. -/
theorem irc_parse_line_spec_witness :
    pyUpper (IrcMessage.mk none "PRIVMSG".data ["#c".data, "hello".data]).command =
      (IrcMessage.mk none "PRIVMSG".data ["#c".data, "hello".data]).command :=
  irc_parse_line_spec.2.2.2.2 "PRIVMSG #c :hello".data _ rfl

/-! ## Outbound IRC chunking (frontend/irc.py, split_lines and send_cmd) -/

/-- Python line terminators recognised here (the code's replies only ever carry
newlines; str.splitlines additionally splits on rarer terminators). -/
def isLineBreak (c : Char) : Bool := c == '\n' || c == '\x0d'

/-- Python str.splitlines, fuelled; every step consumes at least one character. -/
def pySplitlinesFuel (fuel : Nat) (s : List Char) : List (List Char) :=
  match fuel with
  | 0 => []
  | fuel + 1 =>
    match s with
    | [] => []
    | _ =>
      let line := s.takeWhile (fun c => !(isLineBreak c))
      let rest := s.dropWhile (fun c => !(isLineBreak c))
      match rest with
      | '\x0d' :: '\n' :: r => line :: pySplitlinesFuel fuel r
      | _ :: r => line :: pySplitlinesFuel fuel r
      | [] => [line]

/-- Python str.splitlines with sufficient fuel. -/
def pySplitlines (s : List Char) : List (List Char) := pySplitlinesFuel s.length s

/-- The chunk comprehension of split_lines (line 359):
[line[i : i + n] for i in range(0, len(line), n)], fuelled; for n at least 1,
fuel equal to the length of the line is always sufficient. -/
def chunksOfFuel (n : Nat) (fuel : Nat) (l : List Char) : List (List Char) :=
  match fuel with
  | 0 => []
  | fuel + 1 =>
    match l with
    | [] => []
    | _ => l.take n :: chunksOfFuel n fuel (l.drop n)

/-- One line of split_lines chunked at budget n (meaningful for n at least 1;
the code never runs with a non-positive budget in a deployed configuration). -/
def chunkLine (n : Nat) (l : List Char) : List (List Char) := chunksOfFuel n l.length l

/-- The per-line budget the code computes (split_lines lines 357-358):
510 minus len(f-string of the stored full_ident, " PRIVMSG ", channel, " :").
The code's int is modelled as Nat; theorems assume the subtrahend is below 510,
which holds for every real ident/channel. -/
def maxChunkSize (fullIdent channel : List Char) : Nat :=
  510 - (fullIdent ++ " PRIVMSG ".data ++ channel ++ " :".data).length

/-- FrontendIRC.split_lines (lines 343-360): split the reply into lines, chunk
each line at the computed budget, and concatenate the chunk lists. -/
def splitLines (fullIdent channel : List Char) (replyMessage : List Char) : List (List Char) :=
  (pySplitlines replyMessage).flatMap (fun line => chunkLine (maxChunkSize fullIdent channel) line)

/-- The full_ident string as irc_received_join stores it (line 304):
f":{message.full_ident()} " — note the trailing space. -/
def storedFullIdent (nick ident host : List Char) : List Char :=
  ':' :: (nick ++ '!' :: (ident ++ '@' :: host)) ++ " ".data

/-- The per-line budget as claim C7 states it:
510 minus len(":nick!ident@host PRIVMSG target :") with single spaces. -/
def specChunkBudget (nick ident host target : List Char) : Nat :=
  510 - ((':' :: (nick ++ '!' :: (ident ++ '@' :: host))).length
    + " PRIVMSG ".data.length + target.length + " :".data.length)

/-- Space-join of send_cmd (line 256): " ".join(params). -/
def joinSpace (parts : List (List Char)) : List Char :=
  match parts with
  | [] => []
  | [p] => p
  | p :: rest => p ++ ' ' :: joinSpace rest

/-- The last-parameter colon rule of send_cmd (lines 252-254). -/
def colonizeLast (params : List (List Char)) : List (List Char) :=
  match params with
  | [] => []
  | [p] => if p.contains ' ' then [':' :: p] else [p]
  | p :: rest => p :: colonizeLast rest

/-- The line send_cmd assembles and hands to send_line (lines 242-256). -/
def sendCmdLine (cmd : List Char) (parts : List (List Char)) : List Char :=
  joinSpace (cmd :: colonizeLast parts)

theorem mem_chunksOfFuel_length {n fuel : Nat} {l c : List Char}
    (h : c ∈ chunksOfFuel n fuel l) : c.length ≤ n := by
  induction fuel generalizing l with
  | zero => simp [chunksOfFuel] at h
  | succ fuel ih =>
    rcases l with _ | ⟨x, xs⟩
    · simp [chunksOfFuel] at h
    · rw [show chunksOfFuel n (fuel + 1) (x :: xs)
          = (x :: xs).take n :: chunksOfFuel n fuel ((x :: xs).drop n) from rfl,
        List.mem_cons] at h
      rcases h with h | h
      · subst h
        simp [List.length_take]
      · exact ih h

theorem chunksOfFuel_flatten {n : Nat} (hn : 1 ≤ n) (fuel : Nat) (l : List Char)
    (hf : l.length ≤ fuel) : (chunksOfFuel n fuel l).flatten = l := by
  induction fuel generalizing l with
  | zero =>
    have h0 : l = [] := List.length_eq_zero.mp (Nat.le_zero.mp hf)
    subst h0
    rfl
  | succ fuel ih =>
    rcases l with _ | ⟨x, xs⟩
    · rfl
    · rw [show chunksOfFuel n (fuel + 1) (x :: xs)
          = (x :: xs).take n :: chunksOfFuel n fuel ((x :: xs).drop n) from rfl]
      simp only [List.flatten_cons]
      rw [ih _ ?_]
      · exact List.take_append_drop n (x :: xs)
      · rw [List.length_drop]
        simp only [List.length_cons] at hf ⊢
        omega

theorem chunkLine_flatten {n : Nat} (hn : 1 ≤ n) (l : List Char) :
    (chunkLine n l).flatten = l :=
  chunksOfFuel_flatten hn l.length l le_rfl

set_option maxRecDepth 40000 in
set_option maxHeartbeats 1000000 in
/-- Counterexample to claim C7 as stated: with the stored full ident for
nick n, ident u, host h (which carries a trailing space) and channel "#c", a
491-character line is split into two chunks (490 and 1), whereas the claimed
budget of 510 - len(":n!u@h PRIVMSG #c :") = 491 would keep it whole: the code
subtracts one extra byte. -/
theorem irc_chunk_budget_counterexample :
    splitLines (storedFullIdent "n".data "u".data "h".data) "#c".data
        (List.replicate 491 'a')
      ≠ (pySplitlines (List.replicate 491 'a')).flatMap
          (fun line => chunkLine (specChunkBudget "n".data "u".data "h".data "#c".data) line) := by
  decide

theorem sendCmdLine_two (cmd a b : List Char) :
    sendCmdLine cmd [a, b]
      = cmd ++ ' ' :: (a ++ ' ' :: (if b.contains ' ' then ':' :: b else b)) := by
  have hcl : colonizeLast [a, b] = a :: (if b.contains ' ' then [':' :: b] else [b]) := rfl
  by_cases hsp : b.contains ' '
  · show joinSpace (cmd :: colonizeLast [a, b]) = _
    rw [hcl, if_pos hsp, if_pos hsp]
    rfl
  · show joinSpace (cmd :: colonizeLast [a, b]) = _
    rw [hcl, if_neg hsp, if_neg hsp]
    rfl

/-- Claim C7, amended: the budget the code uses is one byte smaller than the
claimed 510 - len(":nick!ident@host PRIVMSG target :"), because the stored
full ident keeps a trailing space; with that budget, every emitted chunk is at
most the budget long, every assembled PRIVMSG line is at most 510 bytes
excluding CRLF, and the concatenation of the chunks of each original reply
line equals that line. -/
theorem irc_chunking_amended (nick ident host fullIdent channel reply : List Char)
    (hpre : (fullIdent ++ " PRIVMSG ".data ++ channel ++ " :".data).length < 510) :
    maxChunkSize (storedFullIdent nick ident host) channel
      = specChunkBudget nick ident host channel - 1 ∧
    (∀ chunk ∈ splitLines fullIdent channel reply,
      chunk.length ≤ maxChunkSize fullIdent channel ∧
      (sendCmdLine "PRIVMSG".data [channel, chunk]).length ≤ 510) ∧
    (∀ line ∈ pySplitlines reply,
      (chunkLine (maxChunkSize fullIdent channel) line).flatten = line) := by
  have h9 : (" PRIVMSG ".data : List Char).length = 9 := rfl
  have h2 : (" :".data : List Char).length = 2 := rfl
  have h1 : (" ".data : List Char).length = 1 := rfl
  have hP : ("PRIVMSG".data : List Char).length = 7 := rfl
  have hpre' : fullIdent.length + 9 + channel.length + 2 < 510 := by
    simp only [List.length_append, h9, h2] at hpre
    omega
  have hbudget : maxChunkSize fullIdent channel
      = 510 - (fullIdent.length + 9 + channel.length + 2) := by
    unfold maxChunkSize
    simp only [List.length_append, h9, h2]
  refine ⟨?_, ?_, ?_⟩
  · unfold maxChunkSize specChunkBudget storedFullIdent
    simp only [List.length_append, List.length_cons, h9, h2, h1]
    omega
  · intro chunk hc
    rw [splitLines, List.mem_flatMap] at hc
    obtain ⟨line, hline, hc⟩ := hc
    have hlen : chunk.length ≤ maxChunkSize fullIdent channel :=
      mem_chunksOfFuel_length hc
    refine ⟨hlen, ?_⟩
    rw [hbudget] at hlen
    rw [sendCmdLine_two]
    by_cases hsp : chunk.contains ' '
    · rw [if_pos hsp]
      simp only [List.length_append, List.length_cons, hP]
      omega
    · rw [if_neg hsp]
      simp only [List.length_append, List.length_cons, hP]
      omega
  · intro line hline
    have hn : 1 ≤ maxChunkSize fullIdent channel := by
      rw [hbudget]
      omega
    exact chunkLine_flatten hn line

/-- Witness for C7: the amended statement at the concrete ident ":n!u@h ",
channel "#c" and the two-line reply "hello\nworld". -/
theorem irc_chunking_amended_witness :
    maxChunkSize (storedFullIdent "n".data "u".data "h".data) "#c".data
      = specChunkBudget "n".data "u".data "h".data "#c".data - 1 ∧
    (∀ chunk ∈ splitLines (storedFullIdent "n".data "u".data "h".data) "#c".data "hello\nworld".data,
      chunk.length ≤ maxChunkSize (storedFullIdent "n".data "u".data "h".data) "#c".data ∧
      (sendCmdLine "PRIVMSG".data ["#c".data, chunk]).length ≤ 510) ∧
    (∀ line ∈ pySplitlines "hello\nworld".data,
      (chunkLine (maxChunkSize (storedFullIdent "n".data "u".data "h".data) "#c".data) line).flatten
        = line) :=
  irc_chunking_amended "n".data "u".data "h".data (storedFullIdent "n".data "u".data "h".data)
    "#c".data "hello\nworld".data (by decide)

/-! ## Filename sanitisation (shared/worker.py, DreambotWorkerBase.clean_filename) -/

/-- DreambotWorkerBase.valid_filename_chars:
f-string of "_.() ", string.ascii_letters, string.digits. -/
def validFilenameChars : List Char :=
  "_.() ".data ++ "abcdefghijklmnopqrstuvwxyzABCDEFGHIJKLMNOPQRSTUVWXYZ".data
    ++ "0123456789".data

/-- The replace loop of clean_filename (lines 102-103): each character of the
replace argument is replaced by an underscore throughout the filename. -/
def replaceChars (repl : List Char) (s : List Char) : List Char :=
  repl.foldl (fun acc c => acc.map (fun x => if x = c then '_' else x)) s

/-- Modelled from the spec: the call
unicodedata.normalize("NFKD", filename).encode("ASCII", "ignore").decode()
uses the Python stdlib (not repository code); per the spec it normalises to
NFKD and drops non-ASCII, which we model as dropping non-ASCII characters.
On ASCII input both agree exactly, and every property proved below is
insensitive to this step because the whitelist filter follows it. -/
def nfkdAsciiIgnore (s : List Char) : List Char := s.filter (fun c => c.toNat < 128)

/-- Python str.replace("__", "") as clean_filename applies it (line 109):
remove non-overlapping double underscores, scanning left to right. -/
def removeDoubleUnderscore : List Char → List Char
  | [] => []
  | [c] => [c]
  | c1 :: c2 :: rest =>
    if c1 = '_' ∧ c2 = '_' then removeDoubleUnderscore rest
    else c1 :: removeDoubleUnderscore (c2 :: rest)

/-- DreambotWorkerBase.clean_filename (shared/worker.py lines 94-110). The
char_limit comes from os.statvfs(output_dir).f_namemax (the host filename
maximum, a property of the filesystem, passed here as the namemax argument)
minus the suffix length. -/
def cleanFilename (namemax : Nat) (repl : List Char) (suffix : List Char)
    (filename : List Char) : List Char :=
  let charLimit := namemax - suffix.length
  let f1 := replaceChars repl filename
  let f2 := nfkdAsciiIgnore f1
  let f3 := f2.filter (fun c => validFilenameChars.contains c)
  let f4 := removeDoubleUnderscore f3
  f4.take charLimit ++ suffix

theorem removeDoubleUnderscore_subset (l : List Char) :
    removeDoubleUnderscore l ⊆ l := by
  induction l using removeDoubleUnderscore.induct with
  | case1 => simp [removeDoubleUnderscore]
  | case2 c => simp [removeDoubleUnderscore]
  | case3 c1 c2 rest hdu ih =>
    rw [show removeDoubleUnderscore (c1 :: c2 :: rest) = removeDoubleUnderscore rest by
      rw [removeDoubleUnderscore, if_pos hdu]]
    refine ih.trans ?_
    intro x hx
    simp [hx]
  | case4 c1 c2 rest hdu ih =>
    rw [show removeDoubleUnderscore (c1 :: c2 :: rest)
        = c1 :: removeDoubleUnderscore (c2 :: rest) by
      rw [removeDoubleUnderscore, if_neg hdu]]
    intro x hx
    rcases List.mem_cons.mp hx with h | h
    · simp [h]
    · exact List.mem_cons_of_mem _ (ih h)

set_option maxRecDepth 4000 in
/-- Counterexample to claim C9 as stated: clean_filename is not idempotent.
With the default replace " " and suffix ".png" and a host filename maximum of
255, clean_filename("a") = "a.png" but clean_filename("a.png") = "a.png.png":
the suffix is appended again on every application. -/
theorem clean_filename_idem_counterexample :
    cleanFilename 255 " ".data ".png".data
        (cleanFilename 255 " ".data ".png".data "a".data)
      ≠ cleanFilename 255 " ".data ".png".data "a".data := by
  decide

/-- Claim C9, amended: the double application of clean_filename appends the
suffix a second time (so the function is not idempotent as claimed); the
output length bound and the character-set property hold as stated: the output
is at most namemax long when the suffix fits, and consists of whitelisted
characters followed by the suffix. -/
theorem clean_filename_amended :
    (∀ namemax repl suffix s, suffix.length ≤ namemax →
      (cleanFilename namemax repl suffix s).length ≤ namemax) ∧
    (∀ namemax repl suffix s, ∃ core,
      cleanFilename namemax repl suffix s = core ++ suffix ∧
      ∀ c ∈ core, c ∈ validFilenameChars) ∧
    cleanFilename 255 " ".data ".png".data (cleanFilename 255 " ".data ".png".data "a".data)
      = cleanFilename 255 " ".data ".png".data "a".data ++ ".png".data := by
  refine ⟨?_, ?_, by decide⟩
  · intro namemax repl suffix s hle
    unfold cleanFilename
    simp only [List.length_append, List.length_take]
    omega
  · intro namemax repl suffix s
    refine ⟨_, rfl, ?_⟩
    intro c hc
    have hmem := removeDoubleUnderscore_subset _ (List.take_subset _ _ hc)
    have hf := List.mem_filter.mp hmem
    simpa using hf.2

/-- Witness for C9 amended: the hypothesised conjunct applied at namemax 255,
suffix ".png" and the input "hello world". -/
theorem clean_filename_amended_witness :
    (".png".data : List Char).length ≤ 255 ∧
    (cleanFilename 255 " ".data ".png".data "hello world".data).length ≤ 255 :=
  ⟨by decide, clean_filename_amended.1 255 " ".data ".png".data "hello world".data (by decide)⟩

/-! ## Worker addresses and durable consumer names (shared/nats.py) -/

/-- The identity of a Dreambot worker: its end ("frontend" or "backend"),
name, and optional subname (empty when unset). -/
structure WorkerId where
  endv : List Char
  name : List Char
  subname : List Char
deriving DecidableEq

/-- Python s.replace(old, new) for a one-character pattern. -/
def replaceCharAll (old new : Char) (s : List Char) : List Char :=
  s.map (fun c => if c = old then new else c)

/-- NatsManager.get_queue_name (nats.py lines 187-199): name, or
name.subname with dots inside the subname replaced by underscores. -/
def getQueueName (w : WorkerId) : List Char :=
  if w.subname ≠ [] then w.name ++ '.' :: replaceCharAll '.' '_' w.subname
  else w.name

/-- NatsManager.get_subject (nats.py lines 201-210); boot (line 80) assigns
this as the worker's address. -/
def getSubject (w : WorkerId) : List Char :=
  w.endv ++ '.' :: getQueueName w

/-- The durable consumer name, equal to the queue-group name, computed in
NatsManager.subscribe (line 104): get_queue_name with dots replaced by
underscores. -/
def subscribeQueueName (w : WorkerId) : List Char :=
  replaceCharAll '.' '_' (getQueueName w)

/-- Counterexample to claim C4 as stated: for the backend worker named gpt
(no subname), the durable consumer name is "gpt", not the address
"backend.gpt" with dots replaced ("backend_gpt"): the durable name does not
include the end segment. -/
theorem durable_name_counterexample :
    subscribeQueueName ⟨"backend".data, "gpt".data, "".data⟩
      ≠ replaceCharAll '.' '_' (getSubject ⟨"backend".data, "gpt".data, "".data⟩) := by
  decide

/-- Claim C4, amended: the worker's address is end.queue-name, and the durable
consumer name (also the queue-group name) equals the address with the leading
end segment and its dot removed and every remaining dot replaced by an
underscore — that is, name, or name_subname-with-dots-replaced. -/
theorem durable_name_amended (w : WorkerId) :
    getSubject w = w.endv ++ '.' :: getQueueName w ∧
    subscribeQueueName w
      = replaceCharAll '.' '_' ((getSubject w).drop (w.endv.length + 1)) := by
  refine ⟨rfl, ?_⟩
  unfold subscribeQueueName getSubject
  congr 1
  rw [show w.endv ++ '.' :: getQueueName w = (w.endv ++ ['.']) ++ getQueueName w by simp]
  rw [show w.endv.length + 1 = (w.endv ++ ['.']).length by simp]
  rw [List.drop_left]

/-! ## Bus manager acknowledgement (shared/nats.py, subscribe lines 126-158) -/

/-- A Python value as the untyped return of callback_receive_workload; the ack
test is the identity comparison "result is not False", so only the
distinguished False value matters. -/
inductive PyVal where
  | pyFalse
  | pyTrue
  | pyNone
  | pyOther
deriving DecidableEq

/-- The outcome of awaiting worker.callback_receive_workload: a returned value
or a raised exception. -/
inductive CallbackOutcome where
  | ret (v : PyVal)
  | exc
deriving DecidableEq

/-- The ack decision of the message loop in NatsManager.subscribe
(lines 138-152): a message delivered while the worker is not booted is skipped
without ack (and redelivered); otherwise the message is acked unless the
callback returned the literal False; an exception from the callback is logged
and the message acked. -/
def ackDecision (isBooted : Bool) (outcome : CallbackOutcome) : Bool :=
  if !isBooted then false
  else
    match outcome with
    | .ret v => !(v == .pyFalse)
    | .exc => true

/-- Claim C1: for a message delivered to a booted worker, the message is acked
iff the callback returned any value other than the literal False or raised;
when it returns exactly False the message is not acked. -/
theorem ack_iff_nonfalse_or_exc :
    (∀ outcome, ackDecision true outcome = true ↔
      ((∃ v, outcome = .ret v ∧ v ≠ .pyFalse) ∨ outcome = .exc)) ∧
    ackDecision true (.ret .pyFalse) = false := by
  constructor
  · intro outcome
    rcases outcome with v | _
    · rcases v <;> simp [ackDecision]
    · simp [ackDecision]
  · rfl

/-! ## Envelopes and the send helper (shared/worker.py, send_message) -/

/-- An abstract Python exception (send_message handles all exceptions alike). -/
inductive PyExc where
  | exc (text : String)
deriving DecidableEq

/-- A request/reply envelope over the keys the code reads and writes. -/
structure Envelope where
  toAddr : String
  replyTo : String
  frontend : String
  server : String
  channel : String
  user : String
  trigger : String
  promptText : String
  replyText : Option String
  replyImage : Option String
  replyNone : Option String
  errorField : Option String
  usageField : Option String
deriving DecidableEq, Repr

/-- The to/reply-to rewrite of DreambotWorkerBase.send_message (lines 61-64):
when the envelope is addressed to this worker, to becomes the original
reply-to and reply-to becomes the worker's address. -/
def sendMessageEnvelope (address : String) (resp : Envelope) : Envelope :=
  if resp.toAddr = address then
    { resp with toAddr := resp.replyTo, replyTo := address }
  else resp

/-- DreambotWorkerBase.send_message (lines 55-70): rewrite to/reply-to, then
invoke the injected publish callback; any exception the callback raises is
caught and only logged, so send_message returns normally either way. -/
def sendMessageRun (address : String) (callback : Envelope → Except PyExc Unit)
    (resp : Envelope) : Except PyExc Unit :=
  match callback (sendMessageEnvelope address resp) with
  | .ok _ => .ok ()
  | .error _ => .ok ()

/-- Claim C5: if the envelope's to equals the worker's address, it is published
with to set to the original reply-to and reply-to set to the address; if it
differs, the envelope is published entirely unchanged; all other fields are
unchanged in both cases. -/
theorem send_message_swap_spec (address : String) (resp : Envelope) :
    (resp.toAddr = address →
      (sendMessageEnvelope address resp).toAddr = resp.replyTo ∧
      (sendMessageEnvelope address resp).replyTo = address) ∧
    (resp.toAddr ≠ address → sendMessageEnvelope address resp = resp) ∧
    ((sendMessageEnvelope address resp).frontend = resp.frontend ∧
     (sendMessageEnvelope address resp).server = resp.server ∧
     (sendMessageEnvelope address resp).channel = resp.channel ∧
     (sendMessageEnvelope address resp).user = resp.user ∧
     (sendMessageEnvelope address resp).trigger = resp.trigger ∧
     (sendMessageEnvelope address resp).promptText = resp.promptText ∧
     (sendMessageEnvelope address resp).replyText = resp.replyText ∧
     (sendMessageEnvelope address resp).replyImage = resp.replyImage ∧
     (sendMessageEnvelope address resp).replyNone = resp.replyNone ∧
     (sendMessageEnvelope address resp).errorField = resp.errorField ∧
     (sendMessageEnvelope address resp).usageField = resp.usageField) := by
  unfold sendMessageEnvelope
  by_cases h : resp.toAddr = address <;> simp [h]

/-- A concrete envelope, shaped like an IRC-originated request, used by
witnesses and counterexamples below. -/
def sampleEnvelope : Envelope :=
  { toAddr := "backend.gpt", replyTo := "frontend.irc.example", frontend := "irc",
    server := "example", channel := "#c", user := "alice", trigger := "!gpt",
    promptText := "hello", replyText := none, replyImage := none,
    replyNone := none, errorField := none, usageField := none }

/-- Witness for C5: the swap branch applied to a concrete envelope addressed
to the worker itself. -/
theorem send_message_swap_spec_witness :
    (sendMessageEnvelope "backend.gpt" sampleEnvelope).toAddr = sampleEnvelope.replyTo ∧
    (sendMessageEnvelope "backend.gpt" sampleEnvelope).replyTo = "backend.gpt" :=
  (send_message_swap_spec "backend.gpt" sampleEnvelope).1 rfl

/-- Claim C10: send_message never raises; an exception from the injected
publish callback is swallowed, so the caller always sees a normal return and
a failed publish drops the envelope silently. -/
theorem send_message_never_raises (address : String)
    (callback : Envelope → Except PyExc Unit) (resp : Envelope) :
    sendMessageRun address callback resp = .ok () := by
  unfold sendMessageRun
  cases h : callback (sendMessageEnvelope address resp) <;> simp

/-! ## GPT backend (backend/gpt.py) -/

/-- Python s.split(sep) for a one-character separator: split at every
occurrence, keeping empty pieces ("".split(" ") is [""]). -/
def pySplitChar (sep : Char) (s : List Char) : List (List Char) :=
  match s with
  | [] => [[]]
  | c :: rest =>
    if c = sep then [] :: pySplitChar sep rest
    else
      match pySplitChar sep rest with
      | [] => [[c]]
      | t :: ts => (c :: t) :: ts

/-- Python prompt.split(" ") over String values (gpt.py line 60,
invokeai.py line 84). -/
def splitOnSpace (s : String) : List String :=
  (pySplitChar ' ' s.data).map (fun l => String.mk l)

/-- Python " ".join(parts) (gpt.py line 61, invokeai.py line 85). -/
def joinSpaceStr : List String → String
  | [] => ""
  | [p] => p
  | p :: rest => p ++ " " ++ joinSpaceStr rest

/-- A role-tagged conversation turn. -/
structure Turn where
  role : String
  content : String
deriving DecidableEq, Repr

/-- The system turn installed by reset_cache (gpt.py lines 133-143). -/
def systemTurn : Turn :=
  ⟨"system", "You are a helpful assistant. Make your answers as brief as possible."⟩

/-- The conversation cache: cache key to the ordered turns, none when absent. -/
def GptCache : Type := String → Option (List Turn)

/-- DreambotBackendGPT.cache_name_for_prompt (gpt.py lines 122-131):
f-string joining reply-to, channel and user with underscores. -/
def cacheNameForPrompt (data : Envelope) : String :=
  data.replyTo ++ "_" ++ data.channel ++ "_" ++ data.user

/-- DreambotBackendGPT.reset_cache (gpt.py lines 133-143). -/
def resetCache (cache : GptCache) (key : String) : GptCache :=
  fun k => if k = key then some [systemTurn] else cache k

/-- DreambotBackendGPT.ensure_cache_for_user (gpt.py lines 107-120); the
returned cache key is always cache_name_for_prompt of the message. -/
def ensureCacheForUser (cache : GptCache) (data : Envelope) : GptCache :=
  let key := cacheNameForPrompt data
  match cache key with
  | none => resetCache cache key
  | some _ => cache

/-- conversation_cache[key].append(turn); every call site has ensured the
entry exists. -/
def appendTurn (cache : GptCache) (key : String) (t : Turn) : GptCache :=
  fun k => if k = key then some (((cache key).getD []) ++ [t]) else cache k

/-- The result of the GPT backend's argument parser (gpt.py lines 145-162). -/
structure GptArgs where
  followup : Bool
  listModels : Bool
  modelName : String
  temperature : String
  promptParts : List String
deriving DecidableEq, Repr

/-- The outcome of ErrorCatchingArgumentParser.parse_args: parsed arguments,
a UsageException carrying the help text, or a ValueError text. -/
inductive ParseOutcome (α : Type) where
  | ok (args : α)
  | usageExc (help : String)
  | argError (text : String)
deriving DecidableEq

/-- Modelled from the spec: the prompt parser is Python stdlib argparse (not
repository code) wrapped by ErrorCatchingArgumentParser (custom_argparse.py),
which raises UsageException carrying format_help() when --help is requested
and ValueError on bad arguments; the REMAINDER positional absorbs everything
from the first non-option token on. We model left-to-right option scanning for
the GPT backend's flags (--model, --list-models, --followup, --temperature and
their short forms) with the remainder as the free-text prompt. -/
def gptParseTokens (helpText : String) (args : GptArgs) :
    List String → ParseOutcome GptArgs
  | [] => .ok args
  | tok :: rest =>
    if tok = "--help" ∨ tok = "-h" then .usageExc helpText
    else if tok = "--followup" ∨ tok = "-f" then
      gptParseTokens helpText { args with followup := true } rest
    else if tok = "--list-models" ∨ tok = "-l" then
      gptParseTokens helpText { args with listModels := true } rest
    else if tok = "--model" ∨ tok = "-m" then
      match rest with
      | v :: rest2 => gptParseTokens helpText { args with modelName := v } rest2
      | [] => .argError "argument -m/--model: expected one argument"
    else if tok = "--temperature" ∨ tok = "-t" then
      match rest with
      | v :: rest2 => gptParseTokens helpText { args with temperature := v } rest2
      | [] => .argError "argument -t/--temperature: expected one argument"
    else .ok { args with promptParts := tok :: rest }

/-- The GPT parser defaults (gpt.py lines 145-162): followup and list-models
false, the configured model, temperature 1.0, empty prompt. -/
def gptDefaults (model : String) : GptArgs := ⟨false, false, model, "1.0", []⟩

/-- parse_args(message["prompt"].split(" ")) for the GPT backend. -/
def gptParseArgs (helpText model prompt : String) : ParseOutcome GptArgs :=
  gptParseTokens helpText (gptDefaults model) (splitOnSpace prompt)

/-- The provider error categories of gpt.py lines 92-101, with the exception
text each carries. -/
inductive GptApiErr where
  | unavailable (text : String)
  | queryErr (text : String)
  | invalidRequest (text : String)
  | unknownErr (text : String)
deriving DecidableEq

/-- The error strings gpt.py writes into the envelope (lines 92-101). -/
def gptErrorText (e : GptApiErr) : String :=
  match e with
  | .unavailable t => "GPT service unavailable, try again: " ++ t
  | .queryErr t => "GPT service query error: " ++ t
  | .invalidRequest t => "GPT request error: " ++ t
  | .unknownErr t => "Unknown error: " ++ t

/-- The fixed list-models reply (gpt.py lines 70-75). -/
def gptModelsText : String := "gpt-4, gpt-3.5-turbo, gpt-3.5-turbo-0301"

/-- DreambotBackendGPT.callback_receive_workload (gpt.py lines 46-105). The
OpenAI call is the api parameter, taking the conversation passed to it and
returning the assistant text or a categorised provider error. Returns the new
cache, the envelope handed to send_message, and the ack boolean (always
True). -/
def gptReceiveWorkload (helpText model : String)
    (api : List Turn → Except GptApiErr String)
    (cache : GptCache) (message : Envelope) : GptCache × Envelope × Bool :=
  match gptParseArgs helpText model message.promptText with
  | .usageExc h => (cache, { message with replyText := some h }, true)
  | .argError e =>
    (cache, { message with errorField := some ("Something is wrong with your arguments, try "
      ++ message.trigger ++ " --help (" ++ e ++ ")") }, true)
  | .ok args =>
    let key := cacheNameForPrompt message
    let cache1 := ensureCacheForUser cache message
    let cache2 := if !args.followup then resetCache cache1 key else cache1
    if args.listModels then
      (appendTurn cache2 key ⟨"assistant", gptModelsText⟩,
        { message with replyText := some gptModelsText }, true)
    else
      let joined := joinSpaceStr args.promptParts
      let cache3 := appendTurn cache2 key ⟨"user", joined⟩
      match api ((cache3 key).getD []) with
      | .ok resp =>
        (appendTurn cache3 key ⟨"assistant", resp⟩,
          { message with replyText := some resp }, true)
      | .error e => (cache3, { message with errorField := some (gptErrorText e) }, true)

/-! ## InvokeAI backend (backend/invokeai.py) -/

/-- The result of the InvokeAI backend's argument parser (lines 540-556). -/
structure InvokeaiArgs where
  modelName : String
  sampler : String
  steps : String
  imgurl : Option String
  seed : String
  promptParts : List String
deriving DecidableEq, Repr

/-- Modelled from the spec, like gptParseTokens: argparse option scanning for
the InvokeAI backend's flags (--model, --sampler, --steps, --imgurl, --seed
and their short forms) with the REMAINDER free-text prompt; --help raises the
usage signal. -/
def invokeaiParseTokens (helpText : String) (args : InvokeaiArgs) :
    List String → ParseOutcome InvokeaiArgs
  | [] => .ok args
  | tok :: rest =>
    if tok = "--help" ∨ tok = "-h" then .usageExc helpText
    else if tok = "--model" ∨ tok = "-m" then
      match rest with
      | v :: rest2 => invokeaiParseTokens helpText { args with modelName := v } rest2
      | [] => .argError "argument -m/--model: expected one argument"
    else if tok = "--sampler" ∨ tok = "-s" then
      match rest with
      | v :: rest2 => invokeaiParseTokens helpText { args with sampler := v } rest2
      | [] => .argError "argument -s/--sampler: expected one argument"
    else if tok = "--steps" ∨ tok = "-t" then
      match rest with
      | v :: rest2 => invokeaiParseTokens helpText { args with steps := v } rest2
      | [] => .argError "argument -t/--steps: expected one argument"
    else if tok = "--imgurl" ∨ tok = "-i" then
      match rest with
      | v :: rest2 => invokeaiParseTokens helpText { args with imgurl := some v } rest2
      | [] => .argError "argument -i/--imgurl: expected one argument"
    else if tok = "--seed" ∨ tok = "-e" then
      match rest with
      | v :: rest2 => invokeaiParseTokens helpText { args with seed := v } rest2
      | [] => .argError "argument -e/--seed: expected one argument"
    else .ok { args with promptParts := tok :: rest }

/-- The InvokeAI parser defaults (invokeai.py lines 46-50 and 540-556). -/
def invokeaiDefaults : InvokeaiArgs :=
  ⟨"stable-diffusion-1.5", "keuler_a", "50", none, "-1", []⟩

/-- The mutable state of the InvokeAI backend: the request correlation table
(request_cache: session id to the originating envelope) and last_completion
(session id to the completed image name, the only field the code reads from
the completion event data). -/
structure InvokeaiState where
  requestCache : String → Option Envelope
  lastCompletion : String → Option String

/-- DreambotBackendInvokeAI.callback_receive_workload (invokeai.py lines
70-133). External interactions are parameters: connected is sio.connected,
postSession the POST of the graph to the sessions endpoint (session id, or
the failure reason), putInvoke the PUT of the invoke endpoint. The envelope
stored in request_cache is the same dict the code keeps mutating, so the
reply-none (or error) written after storage is visible in the table. -/
def invokeaiReceiveWorkload (helpText : String) (connected : Bool)
    (postSession : Except String String) (putInvoke : Except String Unit)
    (st : InvokeaiState) (message : Envelope) : InvokeaiState × Envelope × Bool :=
  match invokeaiParseTokens helpText invokeaiDefaults (splitOnSpace message.promptText) with
  | .usageExc h => (st, { message with replyText := some h }, true)
  | .argError e =>
    (st, { message with errorField := some ("Something is wrong with your arguments, try "
      ++ message.trigger ++ " --help (" ++ e ++ ")") }, true)
  | .ok _args =>
    if !connected then
      (st, { message with
        errorField := some "Not connected to InvokeAI right now, I'll try again later" }, false)
    else
      match postSession with
      | .error reason =>
        (st, { message with errorField := some ("Error from InvokeAI: " ++ reason) }, true)
      | .ok sessionId =>
        match putInvoke with
        | .error reason =>
          let m1 := { message with errorField := some ("Error from InvokeAI: " ++ reason) }
          ({ st with requestCache :=
              fun k => if k = sessionId then some m1 else st.requestCache k }, m1, true)
        | .ok _ =>
          let m1 := { message with
            replyNone := some "Waiting for InvokeAI to generate a response..." }
          ({ st with requestCache :=
              fun k => if k = sessionId then some m1 else st.requestCache k }, m1, true)

/-- DreambotBackendInvokeAI.on_graph_execution_state_complete (invokeai.py
lines 151-189). The requests.get of the result image is the fetchStatus /
fetchReason / fetchContent parameters (fetchContent already carries the
base64-encoding of req.content done on line 180). The request dict is the
object stored in the table, so its field updates are visible there; the table
entry itself is never popped. A missing graph id raises KeyError out of the
socket.io handler: nothing is sent and the state does not change. -/
def onGraphExecutionStateComplete (fetchStatus : String → Nat)
    (fetchReason : String → String) (fetchContent : String → String)
    (st : InvokeaiState) (graphId : String) : InvokeaiState × List Envelope :=
  match st.requestCache graphId with
  | none => (st, [])
  | some request0 =>
    let request1 := { request0 with replyNone := none }
    let st1 : InvokeaiState :=
      { st with requestCache :=
          fun k => if k = graphId then some request1 else st.requestCache k }
    match st.lastCompletion graphId with
    | none => (st1, [request1])
    | some imageName =>
      let st2 : InvokeaiState :=
        { st1 with lastCompletion :=
            fun k => if k = graphId then none else st1.lastCompletion k }
      if fetchStatus imageName ≠ 200 then
        let request2 := { request1 with
          errorField := some ("Error from InvokeAI: " ++ fetchReason imageName) }
        ({ st2 with requestCache :=
            fun k => if k = graphId then some request2 else st2.requestCache k }, [request2])
      else
        let request2 := { request1 with replyImage := some (fetchContent imageName) }
        ({ st2 with requestCache :=
            fun k => if k = graphId then some request2 else st2.requestCache k }, [request2])

/-- DreambotBackendInvokeAI.on_invocation_error (invokeai.py lines 201-216):
look the envelope up, drop reply-none, set the fixed error text, send once;
the table entry is never popped. -/
def onInvocationError (st : InvokeaiState) (graphId : String) :
    InvokeaiState × List Envelope :=
  match st.requestCache graphId with
  | none => (st, [])
  | some request0 =>
    let request1 :=
      { request0 with
          replyNone := none,
          errorField := some "InvokeAI pipeline failure, contact your bot admin" }
    ({ st with requestCache :=
        fun k => if k = graphId then some request1 else st.requestCache k }, [request1])

/-! ## Claim C2: help replies -/

/-- Counterexample to claim C2 as stated: on the prompt "--help something" the
GPT backend's reply envelope does not carry the help text in the usage field
(no backend ever writes the usage key); the help text goes to reply-text. -/
theorem help_usage_field_counterexample :
    ((gptReceiveWorkload "usage: gpt" "gpt-4" (fun _ => .ok "resp") (fun _ => none)
        { sampleEnvelope with promptText := "--help something" }).2.1).usageField
      ≠ some "usage: gpt" ∧
    ((gptReceiveWorkload "usage: gpt" "gpt-4" (fun _ => .ok "resp") (fun _ => none)
        { sampleEnvelope with promptText := "--help something" }).2.1).replyText
      = some "usage: gpt" := by
  exact ⟨by decide, rfl⟩

/-- Claim C2, amended: a prompt whose first token requests help produces, in
both the GPT and InvokeAI backends, a reply envelope whose reply-text field
carries the help text; the error and usage fields are left untouched (no
backend writes a usage field), and the GPT conversation cache is unchanged. -/
theorem help_reply_amended (helpText model prompt : String)
    (api : List Turn → Except GptApiErr String) (cache : GptCache)
    (connected : Bool) (postSession : Except String String)
    (putInvoke : Except String Unit) (st : InvokeaiState) (m : Envelope)
    (rest : List String) (hm : m.promptText = prompt)
    (htok : splitOnSpace prompt = "--help" :: rest) :
    ((gptReceiveWorkload helpText model api cache m).2.1).replyText = some helpText ∧
    ((gptReceiveWorkload helpText model api cache m).2.1).errorField = m.errorField ∧
    ((gptReceiveWorkload helpText model api cache m).2.1).usageField = m.usageField ∧
    (gptReceiveWorkload helpText model api cache m).1 = cache ∧
    ((invokeaiReceiveWorkload helpText connected postSession putInvoke st m).2.1).replyText
      = some helpText ∧
    ((invokeaiReceiveWorkload helpText connected postSession putInvoke st m).2.1).errorField
      = m.errorField ∧
    ((invokeaiReceiveWorkload helpText connected postSession putInvoke st m).2.1).usageField
      = m.usageField := by
  have hg : gptParseArgs helpText model m.promptText = .usageExc helpText := by
    rw [gptParseArgs, hm, htok]
    unfold gptParseTokens
    rw [if_pos (Or.inl rfl)]
  have hi : invokeaiParseTokens helpText invokeaiDefaults (splitOnSpace m.promptText)
      = .usageExc helpText := by
    rw [hm, htok]
    unfold invokeaiParseTokens
    rw [if_pos (Or.inl rfl)]
  refine ⟨?_, ?_, ?_, ?_, ?_, ?_, ?_⟩ <;>
    · simp [gptReceiveWorkload, invokeaiReceiveWorkload, hg, hi]

/-- Witness for C2 amended: the concrete prompt "--help something". -/
theorem help_reply_amended_witness :
    ((gptReceiveWorkload "usage: gpt" "gpt-4" (fun _ => .ok "resp") (fun _ => none)
        { sampleEnvelope with promptText := "--help something" }).2.1).replyText
      = some "usage: gpt" :=
  (help_reply_amended "usage: gpt" "gpt-4" "--help something" (fun _ => .ok "resp")
    (fun _ => none) true (.ok "sid") (.ok ()) ⟨fun _ => none, fun _ => none⟩
    { sampleEnvelope with promptText := "--help something" } ["something"]
    rfl (by decide)).1

/-! ## Claim C8: GPT conversation cache -/

theorem resetCache_self (c : GptCache) (key : String) :
    resetCache c key key = some [systemTurn] := by
  simp [resetCache]

theorem resetCache_other (c : GptCache) {k key : String} (h : k ≠ key) :
    resetCache c key k = c k := by
  simp [resetCache, h]

theorem appendTurn_self (c : GptCache) (key : String) (t : Turn) :
    appendTurn c key t key = some (((c key).getD []) ++ [t]) := by
  simp [appendTurn]

theorem appendTurn_other (c : GptCache) {k key : String} (t : Turn) (h : k ≠ key) :
    appendTurn c key t k = c k := by
  simp [appendTurn, h]

theorem ensureCacheForUser_other (c : GptCache) (m : Envelope) {k : String}
    (h : k ≠ cacheNameForPrompt m) : ensureCacheForUser c m k = c k := by
  unfold ensureCacheForUser
  cases hc : c (cacheNameForPrompt m) <;> simp [hc, resetCache_other _ h]

theorem ensureCacheForUser_of_some (c : GptCache) (m : Envelope) {prev : List Turn}
    (h : c (cacheNameForPrompt m) = some prev) : ensureCacheForUser c m = c := by
  unfold ensureCacheForUser
  simp only [h]

/-- Counterexample to claim C8 as stated: the envelopes with
(reply-to, channel, user) = ("a_b", "c", "d") and ("a", "b_c", "d") have
different tuples but the same underscore-joined cache key "a_b_c_d", so
processing the first writes the cache entry the second reads. -/
theorem gpt_cache_isolation_counterexample :
    cacheNameForPrompt { sampleEnvelope with replyTo := "a_b", channel := "c", user := "d" }
      = cacheNameForPrompt { sampleEnvelope with replyTo := "a", channel := "b_c", user := "d" } ∧
    ({ sampleEnvelope with replyTo := "a_b", channel := "c", user := "d" } : Envelope).replyTo
      ≠ ({ sampleEnvelope with replyTo := "a", channel := "b_c", user := "d" } : Envelope).replyTo ∧
    (gptReceiveWorkload "help" "gpt-4" (fun _ => .ok "resp") (fun _ => none)
        { sampleEnvelope with replyTo := "a_b", channel := "c", user := "d" }).1
      (cacheNameForPrompt { sampleEnvelope with replyTo := "a", channel := "b_c", user := "d" })
      ≠ none := by
  exact ⟨rfl, by decide, by decide⟩

/-- Claim C8, amended: two requests share a conversation-cache entry exactly
when their underscore-joined keys reply-to_channel_user coincide (which can
happen for distinct (reply-to, channel, user) tuples when the components
contain underscores); processing a request touches no other entry; a request
without followup first resets its entry to the single system turn and then
appends the user turn (and the assistant turn when the API call succeeds); a
request with followup appends to the existing entry. -/
theorem gpt_cache_amended :
    (∀ helpText model api cache (m : Envelope) k, k ≠ cacheNameForPrompt m →
      (gptReceiveWorkload helpText model api cache m).1 k = cache k) ∧
    (∀ helpText model api cache (m : Envelope) args,
      gptParseArgs helpText model m.promptText = .ok args →
      args.followup = false → args.listModels = false →
      (gptReceiveWorkload helpText model api cache m).1 (cacheNameForPrompt m)
        = some (match api [systemTurn, ⟨"user", joinSpaceStr args.promptParts⟩] with
            | .ok resp => [systemTurn, ⟨"user", joinSpaceStr args.promptParts⟩,
                ⟨"assistant", resp⟩]
            | .error _ => [systemTurn, ⟨"user", joinSpaceStr args.promptParts⟩])) ∧
    (∀ helpText model api cache (m : Envelope) args prev,
      gptParseArgs helpText model m.promptText = .ok args →
      args.followup = true → args.listModels = false →
      cache (cacheNameForPrompt m) = some prev →
      (gptReceiveWorkload helpText model api cache m).1 (cacheNameForPrompt m)
        = some (match api (prev ++ [⟨"user", joinSpaceStr args.promptParts⟩]) with
            | .ok resp => prev ++ [⟨"user", joinSpaceStr args.promptParts⟩,
                ⟨"assistant", resp⟩]
            | .error _ => prev ++ [⟨"user", joinSpaceStr args.promptParts⟩])) := by
  refine ⟨?_, ?_, ?_⟩
  · intro helpText model api cache m k hk
    rcases hp : gptParseArgs helpText model m.promptText with args | h | e
    · unfold gptReceiveWorkload
      rw [hp]
      have hc2 : ∀ cache2 : GptCache, cache2 = ensureCacheForUser cache m ∨
          cache2 = resetCache (ensureCacheForUser cache m) (cacheNameForPrompt m) →
          ∀ t, appendTurn cache2 (cacheNameForPrompt m) t k = cache k := by
        intro cache2 h2 t
        rw [appendTurn_other _ _ hk]
        rcases h2 with h2 | h2 <;> subst h2
        · exact ensureCacheForUser_other cache m hk
        · rw [resetCache_other _ hk]
          exact ensureCacheForUser_other cache m hk
      dsimp only
      cases hf : args.followup <;> cases hl : args.listModels <;>
        simp only [Bool.not_false, Bool.not_true, if_true, if_false, Bool.false_eq_true,
          ite_true, ite_false]
      all_goals first
        | exact hc2 _ (Or.inr rfl) _
        | exact hc2 _ (Or.inl rfl) _
        | (split
           · dsimp only
             rw [appendTurn_other _ _ hk]
             first
               | exact hc2 _ (Or.inr rfl) _
               | exact hc2 _ (Or.inl rfl) _
           · dsimp only
             first
               | exact hc2 _ (Or.inr rfl) _
               | exact hc2 _ (Or.inl rfl) _)
    · unfold gptReceiveWorkload
      rw [hp]
    · unfold gptReceiveWorkload
      rw [hp]
  · intro helpText model api cache m args hp hf hl
    unfold gptReceiveWorkload
    rw [hp]
    dsimp only
    rw [hf, hl]
    simp only [Bool.not_false, if_true, Bool.false_eq_true, if_false]
    have hc2 : (appendTurn (resetCache (ensureCacheForUser cache m) (cacheNameForPrompt m))
        (cacheNameForPrompt m) ⟨"user", joinSpaceStr args.promptParts⟩)
          (cacheNameForPrompt m)
        = some [systemTurn, ⟨"user", joinSpaceStr args.promptParts⟩] := by
      rw [appendTurn_self, resetCache_self]
      rfl
    rw [hc2]
    simp only [Option.getD_some]
    cases ha : api [systemTurn, ⟨"user", joinSpaceStr args.promptParts⟩] with
    | ok resp =>
      dsimp only
      rw [appendTurn_self, hc2]
      rfl
    | error e =>
      dsimp only
      exact hc2
  · intro helpText model api cache m args prev hp hf hl hprev
    unfold gptReceiveWorkload
    rw [hp]
    dsimp only
    rw [hf, hl]
    simp only [Bool.not_true, Bool.false_eq_true, if_false]
    rw [ensureCacheForUser_of_some cache m hprev]
    have hc3 : (appendTurn cache (cacheNameForPrompt m)
        ⟨"user", joinSpaceStr args.promptParts⟩) (cacheNameForPrompt m)
        = some (prev ++ [⟨"user", joinSpaceStr args.promptParts⟩]) := by
      rw [appendTurn_self, hprev]
      rfl
    rw [hc3]
    simp only [Option.getD_some]
    cases ha : api (prev ++ [⟨"user", joinSpaceStr args.promptParts⟩]) with
    | ok resp =>
      dsimp only
      rw [appendTurn_self, hc3]
      simp
    | error e =>
      dsimp only
      exact hc3

/-- Witness for C8 amended: the frame conjunct applied with a key different
from the concrete request's key. -/
theorem gpt_cache_amended_witness :
    "other_key" ≠ cacheNameForPrompt sampleEnvelope ∧
    (gptReceiveWorkload "help" "gpt-4" (fun _ => .ok "resp") (fun _ => none)
        sampleEnvelope).1 "other_key" = (fun _ => (none : Option (List Turn))) "other_key" :=
  ⟨by decide, gpt_cache_amended.1 "help" "gpt-4" (fun _ => .ok "resp") (fun _ => none)
    sampleEnvelope "other_key" (by decide)⟩

/-! ## Claim C3: InvokeAI request correlation -/

/-- A concrete correlation-table state holding one in-flight session "s1"
with a recorded completion, used by the C3 counterexample. -/
def sampleIAState : InvokeaiState :=
  { requestCache := fun k =>
      if k = "s1" then
        some { sampleEnvelope with
                 replyNone := some "Waiting for InvokeAI to generate a response..." }
      else none,
    lastCompletion := fun k => if k = "s1" then some "img1" else none }

/-- Counterexample to claim C3 as stated: neither the completion event nor the
invocation-error event removes the session id from request_cache; after either
handler runs for session "s1" the entry is still present. -/
theorem invokeai_cache_removal_counterexample :
    ((onGraphExecutionStateComplete (fun _ => 200) (fun _ => "OK") (fun _ => "B64IMG")
        sampleIAState "s1").1.requestCache "s1") ≠ none ∧
    ((onInvocationError sampleIAState "s1").1.requestCache "s1") ≠ none := by
  exact ⟨by decide, by decide⟩

/-- Claim C3, amended: request_cache entries are never removed — the
correlation table only grows — but every terminal event for a recorded session
emits exactly one reply envelope built from the exact envelope captured at
submission (so all context fields survive): the completion event clears the
session's last_completion entry and emits reply-image when a completion was
recorded and the image fetch succeeds (an error envelope when the fetch fails,
and the bare envelope when no completion was recorded), and the
invocation-error event emits an error envelope; entries for other sessions
are untouched. -/
theorem invokeai_events_amended (fetchStatus : String → Nat)
    (fetchReason fetchContent : String → String) (st : InvokeaiState)
    (gid : String) (e : Envelope) (h : st.requestCache gid = some e) :
    ((onGraphExecutionStateComplete fetchStatus fetchReason fetchContent st gid).2.length
        = 1 ∧
     ((onGraphExecutionStateComplete fetchStatus fetchReason fetchContent st
        gid).1.requestCache gid).isSome ∧
     (∀ k, k ≠ gid →
       (onGraphExecutionStateComplete fetchStatus fetchReason fetchContent st
          gid).1.requestCache k = st.requestCache k) ∧
     (onGraphExecutionStateComplete fetchStatus fetchReason fetchContent st
        gid).1.lastCompletion gid = none ∧
     (∀ img, st.lastCompletion gid = some img → fetchStatus img = 200 →
       (onGraphExecutionStateComplete fetchStatus fetchReason fetchContent st gid).2
         = [{ e with replyNone := none, replyImage := some (fetchContent img) }]) ∧
     (st.lastCompletion gid = none →
       (onGraphExecutionStateComplete fetchStatus fetchReason fetchContent st gid).2
         = [{ e with replyNone := none }]) ∧
     (∀ img, st.lastCompletion gid = some img → fetchStatus img ≠ 200 →
       (onGraphExecutionStateComplete fetchStatus fetchReason fetchContent st gid).2
         = [{ e with
                replyNone := none,
                errorField := some ("Error from InvokeAI: " ++ fetchReason img) }])) ∧
    ((onInvocationError st gid).2
       = [{ e with
              replyNone := none,
              errorField := some "InvokeAI pipeline failure, contact your bot admin" }] ∧
     ((onInvocationError st gid).1.requestCache gid).isSome ∧
     (∀ k, k ≠ gid → (onInvocationError st gid).1.requestCache k = st.requestCache k)) := by
  refine ⟨⟨?_, ?_, ?_, ?_, ?_, ?_, ?_⟩, ?_, ?_, ?_⟩
  · unfold onGraphExecutionStateComplete
    rw [h]
    cases hlc : st.lastCompletion gid with
    | none => rfl
    | some img =>
      dsimp only
      split <;> rfl
  · unfold onGraphExecutionStateComplete
    rw [h]
    cases hlc : st.lastCompletion gid with
    | none => simp
    | some img =>
      dsimp only
      split <;> simp
  · intro k hk
    unfold onGraphExecutionStateComplete
    rw [h]
    cases hlc : st.lastCompletion gid with
    | none =>
      dsimp only
      simp [hk]
    | some img =>
      dsimp only
      split <;> simp [hk]
  · unfold onGraphExecutionStateComplete
    rw [h]
    cases hlc : st.lastCompletion gid with
    | none =>
      dsimp only
      exact hlc
    | some img =>
      dsimp only
      split <;> simp
  · intro img hlc hs
    unfold onGraphExecutionStateComplete
    rw [h, hlc]
    dsimp only
    rw [if_neg (by simp [hs])]
  · intro hlc
    unfold onGraphExecutionStateComplete
    rw [h, hlc]
  · intro img hlc hs
    unfold onGraphExecutionStateComplete
    rw [h, hlc]
    dsimp only
    rw [if_pos hs]
  · unfold onInvocationError
    rw [h]
  · unfold onInvocationError
    rw [h]
    simp
  · intro k hk
    unfold onInvocationError
    rw [h]
    dsimp only
    simp [hk]

/-- Witness for C3 amended: the fetch-success conjunct applied to the concrete
state sampleIAState. -/
theorem invokeai_events_amended_witness :
    (onGraphExecutionStateComplete (fun _ => 200) (fun _ => "OK") (fun _ => "B64IMG")
        sampleIAState "s1").2
      = [{ ({ sampleEnvelope with
                replyNone := some "Waiting for InvokeAI to generate a response..." }
            : Envelope) with
            replyNone := none, replyImage := some "B64IMG" }] :=
  ((invokeai_events_amended (fun _ => 200) (fun _ => "OK") (fun _ => "B64IMG")
      sampleIAState "s1"
      { sampleEnvelope with
          replyNone := some "Waiting for InvokeAI to generate a response..." }
      (by decide)).1.2.2.2.2.1) "img1" (by decide) rfl

end Dreambot
